import Mathlib

/-!
Shallow embedding of `src/checkin.py` (conference check-in automation).

Conventions of the embedding:
* Wall-clock instants are counted in whole minutes since the epoch, as
  integers.  A Python `datetime` is a wall-clock minute count together with
  an optional UTC offset (`tzinfo`), also in minutes; a Python `date` is a
  day index.  `dt.date()` is floor division by 1440 and `dt.hour` is the
  minute-of-day divided by 60.
* `dt.astimezone(tz)` on an aware datetime shifts the wall clock by the
  difference of the offsets; `dt.replace(tzinfo=tz)` keeps the wall clock
  and attaches the offset.
* Python string lowering is modelled with ASCII `Char.toLower`, and the
  Python substring test `needle in hay` as a list-infix test on the
  characters.
* Calendar components without the VEVENT name or without a DTSTART are
  skipped by the source before any logic the claims touch; the embedding
  therefore works on the list of events that carry a summary and a start.
-/

/-- Minute-of-epoch wall clock of a Python datetime together with its
optional tzinfo as a UTC offset in minutes (`none` = timezone-naive). -/
structure DT where
  wall : Int
  tz : Option Int
deriving DecidableEq, Repr

/-- The `DTSTART` value of an event: either a bare calendar date
(day index) or a datetime. -/
inductive EventStart where
  | date (d : Int)
  | dateTime (dt : DT)
deriving DecidableEq, Repr

/-- A calendar event as built by `get_todays_events`: a SUMMARY string and a
DTSTART value. -/
structure Event where
  summary : String
  start : EventStart
deriving DecidableEq, Repr

/-- `dt.date()`: the day index of a wall-clock minute count. -/
def dateOf (wall : Int) : Int := wall.fdiv 1440

/-- `dt.hour`: the hour of the day of a wall-clock minute count. -/
def hourOf (wall : Int) : Int := (wall.emod 1440).fdiv 60

/-- Python `s.lower()` (ASCII fragment). -/
def lowerStr (s : String) : String := String.mk (s.toList.map Char.toLower)

/-- `needle` is a prefix of `hay` (character lists). -/
def isPrefixCh : List Char → List Char → Bool
  | [], _ => true
  | _ :: _, [] => false
  | a :: as, b :: bs => a == b && isPrefixCh as bs

/-- `needle` occurs as a contiguous run somewhere in `hay`. -/
def containsCh (needle : List Char) : List Char → Bool
  | [] => isPrefixCh needle []
  | b :: bs => isPrefixCh needle (b :: bs) || containsCh needle bs

/-- Python `needle in hay` on strings: substring test. -/
def strContains (hay needle : String) : Bool :=
  containsCh needle.toList hay.toList

/-- Lines 95-98 of the source: the local wall clock of a datetime after
conversion into the configured timezone `tzOff` — `astimezone` for an aware
datetime, `replace(tzinfo=tz)` (no shift) for a naive one. -/
def localWall (tzOff : Int) (dt : DT) : Int :=
  match dt.tz with
  | some o => dt.wall - o + tzOff
  | none => dt.wall

/-- Line 72-75, line 100: the `time_windows` dict looked up with default
`(0, 24)`. -/
def timeWindow (lectureTime : String) : Int × Int :=
  if lectureTime = "8AM" then (7, 10)
  else if lectureTime = "12PM" then (11, 14)
  else (0, 24)

/-- Python truthiness of the optional `lecture_time` argument: `None` and
the empty string are falsy. -/
def lectureTimeTruthy : Option String → Bool
  | none => false
  | some s => !s.isEmpty

/-- Lines 93-102 of the source: the time-window filter applied to a
datetime start.  Returns `true` when the event survives this step. -/
def windowAllows (tzOff : Int) (lectureTime : Option String) (dt : DT) : Bool :=
  if lectureTimeTruthy lectureTime then
    match lectureTime with
    | none => true
    | some lt =>
      let w := timeWindow lt
      decide (w.1 ≤ hourOf (localWall tzOff dt) ∧ hourOf (localWall tzOff dt) < w.2)
  else true

/-- Lines 86-102 of the source: the per-event inclusion decision of
`get_todays_events` — the date-equality test on the own date of the start
component, then, for datetimes only, the time-window filter. -/
def includeEvent (tzOff : Int) (today : Int) (lectureTime : Option String)
    (e : EventStart) : Bool :=
  let eventDate : Int :=
    match e with
    | .date d => d
    | .dateTime dt => dateOf dt.wall
  if eventDate ≠ today then false
  else
    match e with
    | .date _ => true
    | .dateTime dt => windowAllows tzOff lectureTime dt

/-- `get_todays_events` restricted to its filtering content: keep, in
encounter order, the events whose start passes `includeEvent`. -/
def get_todays_events (tzOff : Int) (today : Int) (lectureTime : Option String)
    (events : List Event) : List Event :=
  events.filter (fun e => includeEvent tzOff today lectureTime e.start)

/-- Line 125 of the source: the skip reason string
`Found skip keyword <kw> in event: <summary>` (the keyword is wrapped in
single quotes). -/
def skipReason (kw s : String) : String :=
  "Found skip keyword \x27" ++ kw ++ "\x27 in event: " ++ s

/-- Line 129 of the source: the conference-day reason string. -/
def conferenceReason (summaries : List String) : String :=
  "Conference day detected. Events: " ++ String.intercalate ", " summaries

/-- Lines 123-124: the first keyword in list order whose lowercase form is
a substring of the lowercased summary of the event. -/
def firstMatchKw (summary : String) (keywords : List String) : Option String :=
  keywords.find? (fun k => strContains (lowerStr summary) (lowerStr k))

/-- Lines 121-125: scan events in order; on the first event with a matching
skip keyword, return that keyword with the (original) summary of the event. -/
def scanEvents (events : List Event) (keywords : List String) :
    Option (String × String) :=
  match events with
  | [] => none
  | e :: rest =>
    match firstMatchKw e.summary keywords with
    | some k => some (k, e.summary)
    | none => scanEvents rest keywords

/-- Lines 113-129 of the source: `is_conference_day`. -/
def is_conference_day (events : List Event) (skip_keywords : List String) :
    Bool × String :=
  if events.isEmpty then (false, "No events found for today")
  else
    match scanEvents events skip_keywords with
    | some (k, s) => (false, skipReason k s)
    | none => (true, conferenceReason (events.map (·.summary)))

/-- A candidate control in the fallback chain used to advance / submit a
survey page (lines 190-196 and 263-267 of the source). -/
inductive NextCandidate where
  /-- `button[aria-label=Next]` -/
  | ariaLabelNext
  /-- a button whose text is the forward-arrow glyph -/
  | arrowText
  /-- the `.NextButton` style class -/
  | nextButtonClass
  /-- `button >> nth=-1`: the last button anywhere on the page -/
  | lastButtonOnPage
deriving DecidableEq, Repr

/-- Lines 190-196: the page-1 advance chain, in fallback order. -/
def page1NextChain : List NextCandidate :=
  [.ariaLabelNext, .arrowText, .nextButtonClass, .lastButtonOnPage]

/-- Lines 263-267: the page-2 (non-dry-run) submit chain, in fallback
order. -/
def page2SubmitChain : List NextCandidate :=
  [.ariaLabelNext, .arrowText, .nextButtonClass]

/-- Outcome of the calendar fetch + parse step of `main` (lines 317-318):
either a filtered event list or an exception. -/
inductive FetchResult where
  | ok (events : List Event)
  | err
deriving DecidableEq, Repr

/-- Observable outcome of one run of `main`: the process exit code and how
many times `submit_survey` was invoked. -/
structure RunOutcome where
  exitCode : Nat
  surveyCalls : Nat
deriving DecidableEq, Repr

/-- Lines 316-347 of the source: the decision structure of `main`.
`fetch` is the outcome of `fetch_calendar` + `get_todays_events`;
`surveyOk` is the boolean returned by `submit_survey` when it is invoked. -/
def mainRun (fetch : FetchResult) (force : Bool) (skipKeywords : List String)
    (surveyOk : Bool) : RunOutcome :=
  match fetch with
  | .err =>
    if !force then ⟨1, 0⟩
    else ⟨if surveyOk then 0 else 1, 1⟩
  | .ok events =>
    let isConf := (is_conference_day events skipKeywords).1
    if !isConf && !force then ⟨0, 0⟩
    else ⟨if surveyOk then 0 else 1, 1⟩

/-- Days-since-epoch to civil (year, month, day), proleptic Gregorian. -/
def civilFromDays (z0 : Int) : Int × Int × Int :=
  let z := z0 + 719468
  let era := z.fdiv 146097
  let doe := z - era * 146097
  let yoe := (doe - doe.fdiv 1460 + doe.fdiv 36524 - doe.fdiv 146096).fdiv 365
  let y := yoe + era * 400
  let doy := doe - (365 * yoe + yoe.fdiv 4 - yoe.fdiv 100)
  let mp := (5 * doy + 2).fdiv 153
  let d := doy - (153 * mp + 2).fdiv 5 + 1
  let m := mp + (if mp < 10 then 3 else -9)
  (if m ≤ 2 then y + 1 else y, m, d)

/-- Zero-padded two-digit rendering of a field. -/
def pad2 (n : Int) : String :=
  if n < 10 then "0" ++ toString n else toString n

/-- `strftime(%m/%d/%Y)` applied to a day index. -/
def formatMMDDYYYY (day : Int) : String :=
  let c := civilFromDays day
  pad2 c.2.1 ++ "/" ++ pad2 c.2.2 ++ "/" ++ toString c.1

/-- Line 159 of the source: the date `submit_survey` writes into the form.
`datetime.now()` carries no timezone argument, so the date is taken from
the local wall time of the system clock `utcNow + sysOff`; the configured
timezone offset `cfgOff` is accepted here only to expose that it is not
consulted. -/
def submit_survey_date (utcNow sysOff _cfgOff : Int) : String :=
  formatMMDDYYYY (dateOf (utcNow + sysOff))

/-- Line 68 of the source: the `today` used for calendar filtering,
`datetime.now(tz).date()` — the date in the configured timezone. -/
def get_todays_events_today (utcNow cfgOff : Int) : Int :=
  dateOf (utcNow + cfgOff)

/-! ### Helper lemmas -/

/-- `timeWindow` on the morning slot. -/
theorem timeWindow_8AM : timeWindow "8AM" = (7, 10) := rfl

/-- `timeWindow` on the midday slot. -/
theorem timeWindow_12PM : timeWindow "12PM" = (11, 14) := rfl

/-- `find?` returns the middle element when everything before it fails the
predicate and it succeeds. -/
theorem find_middle {α : Type} (p : α → Bool) (l1 : List α) (a : α)
    (l2 : List α) (h1 : ∀ x ∈ l1, p x = false) (ha : p a = true) :
    (l1 ++ a :: l2).find? p = some a := by
  induction l1 with
  | nil => simp [List.find?_cons, ha]
  | cons b l1 ih =>
    have hb : p b = false := h1 b (by simp)
    simp only [List.cons_append, List.find?_cons, hb]
    exact ih (fun x hx => h1 x (by simp [hx]))

/-- A scan of a prefix of non-matching events is skipped. -/
theorem scanEvents_append_none (pre rest : List Event) (kws : List String)
    (hpre : ∀ e ∈ pre, firstMatchKw e.summary kws = none) :
    scanEvents (pre ++ rest) kws = scanEvents rest kws := by
  induction pre with
  | nil => rfl
  | cons e pre ih =>
    have he : firstMatchKw e.summary kws = none := hpre e (by simp)
    simp only [List.cons_append, scanEvents, he]
    exact ih (fun x hx => hpre x (by simp [hx]))

/-- `scanEvents` finds nothing iff no event has a matching keyword. -/
theorem scanEvents_eq_none (events : List Event) (kws : List String) :
    scanEvents events kws = none ↔
      ∀ e ∈ events, firstMatchKw e.summary kws = none := by
  induction events with
  | nil => simp [scanEvents]
  | cons e rest ih =>
    cases hm : firstMatchKw e.summary kws with
    | some k => simp [scanEvents, hm]
    | none => simp [scanEvents, hm, ih]

/-! ### Claim theorems -/

/-- Claim C3, counterexample to the stated reason string: on the empty
event list the classifier does return decision = false, but the reason is
`No events found for today` with a capital N, not the lowercase string the
claim quotes. -/
theorem C3_counterexample :
    is_conference_day [] ["admin"] ≠ (false, "no events found for today") := by
  decide

/-- Claim C3, amended: for every skip-keyword configuration, the classifier
on the empty event list returns decision = false with reason
`No events found for today` (capital N as written in the code); the
skip-keyword list has no influence on this result. -/
theorem C3_empty_events (kws : List String) :
    is_conference_day [] kws = (false, "No events found for today") := rfl

/-- Claim C5: a date-only event (no time component) is included exactly
when its date equals today; the time-window label never excludes it. -/
theorem C5_date_only (tzOff today : Int) (lt : Option String) (d : Int) :
    includeEvent tzOff today lt (.date d) = decide (d = today) := by
  by_cases h : d = today <;> simp [includeEvent, h]

/-- Claim C6: a timezone-naive datetime (interpreted as already local,
without shifting) and a timezone-aware datetime that convert to the same
local wall-clock moment receive the same window-inclusion result from the
time-window filter, for every window label. -/
theorem C6_naive_aware_window (tzOff : Int) (lt : Option String)
    (wa o w : Int) (h : wa - o + tzOff = w) :
    windowAllows tzOff lt ⟨wa, some o⟩ = windowAllows tzOff lt ⟨w, none⟩ := by
  simp only [windowAllows, localWall, h]

/-- Witness for C6 at a concrete pair: an aware event at wall minute 2820
with offset -600 and a naive event at wall minute 3420 denote the same
local moment in timezone offset 0 and get the same morning-window result. -/
theorem C6_witness :
    windowAllows 0 (some "8AM") ⟨2820, some (-600)⟩ =
      windowAllows 0 (some "8AM") ⟨3420, none⟩ :=
  C6_naive_aware_window 0 (some "8AM") 2820 (-600) 3420 (by decide)

/-- Claim C8, counterexample: the page-2 non-dry-run submit chain is not
identical to the page-1 advance chain — it lacks the last-resort
last-button-on-page candidate. -/
theorem C8_counterexample :
    page2SubmitChain ≠ page1NextChain ∧
      NextCandidate.lastButtonOnPage ∉ page2SubmitChain := by
  decide

/-- Claim C8, amended: the page-2 submit action performs the first three
candidates of the page-1 chain in the same order (accessibility-labeled
Next, forward-arrow text, known next style class) but omits the page-1
last resort, the last button anywhere on the page. -/
theorem C8_chain_relation :
    page2SubmitChain = page1NextChain.take 3 ∧
      page1NextChain = page2SubmitChain ++ [NextCandidate.lastButtonOnPage] := by
  decide

/-- Claim C10: the date written into the survey form comes from the local
clock of the system (`datetime.now()` with no timezone argument), so for a
fixed system-local now it is unchanged under any configured timezone
offset, while the `today` used for calendar filtering is taken in the
configured timezone; at UTC instant 29862750 (2026-10-12 00:30 UTC) with
system offset 0 and configured offset -480 minutes the two dates differ. -/
theorem C10_date_source :
    (∀ utcNow sysOff c c' : Int,
        submit_survey_date utcNow sysOff c = submit_survey_date utcNow sysOff c')
    ∧ submit_survey_date 29862750 0 (-480) = "10/12/2026"
    ∧ formatMMDDYYYY (get_todays_events_today 29862750 (-480)) = "10/11/2026"
    ∧ submit_survey_date 29862750 0 (-480) ≠
        formatMMDDYYYY (get_todays_events_today 29862750 (-480)) :=
  ⟨fun _ _ _ _ => rfl, by decide, by decide, by decide⟩

/-- Truthiness of the morning label. -/
theorem lectureTruthy_8AM : lectureTimeTruthy (some "8AM") = true := rfl

/-- Truthiness of the midday label. -/
theorem lectureTruthy_12PM : lectureTimeTruthy (some "12PM") = true := rfl

/-- The empty needle occurs in every haystack. -/
theorem containsCh_nil (l : List Char) : containsCh [] l = true := by
  cases l <;> simp [containsCh, isPrefixCh]

/-- Claim C4, counterexample: an aware datetime at wall minute 2820 (day 1,
23:00) with offset -600, filtered in timezone offset 0 with today = 2,
has local date 2 = today and local hour 9 inside the morning window [7,10),
yet the filter excludes it — the date-equality test at line 89 compares the
unconverted date component, which is day 1. -/
theorem C4_counterexample :
    dateOf (localWall 0 ⟨2820, some (-600)⟩) = 2 ∧
    hourOf (localWall 0 ⟨2820, some (-600)⟩) = 9 ∧
    includeEvent 0 2 (some "8AM") (.dateTime ⟨2820, some (-600)⟩) = false := by
  decide

/-- Claim C4, amended: for a datetime event whose own (unconverted) date
component equals today, with a window label given, the filter includes the
event iff its local hour lies in the half-open window range — [7,10) for
the morning slot, [11,14) for the midday slot. -/
theorem C4_window_amended (tzOff today : Int) (dt : DT)
    (hd : dateOf dt.wall = today) :
    (includeEvent tzOff today (some "8AM") (.dateTime dt) =
      decide (7 ≤ hourOf (localWall tzOff dt) ∧ hourOf (localWall tzOff dt) < 10))
    ∧ (includeEvent tzOff today (some "12PM") (.dateTime dt) =
      decide (11 ≤ hourOf (localWall tzOff dt) ∧ hourOf (localWall tzOff dt) < 14)) := by
  constructor <;>
    simp [includeEvent, hd, windowAllows, lectureTruthy_8AM, lectureTruthy_12PM,
      timeWindow_8AM, timeWindow_12PM]

/-- Witness for the amended C4 at concrete naive events on day 0: local
hour 9 is included in the morning window, hours 10 and 6 are excluded. -/
theorem C4_witness :
    includeEvent 0 0 (some "8AM") (.dateTime ⟨540, none⟩) = true ∧
    includeEvent 0 0 (some "8AM") (.dateTime ⟨600, none⟩) = false ∧
    includeEvent 0 0 (some "8AM") (.dateTime ⟨360, none⟩) = false :=
  ⟨((C4_window_amended 0 0 ⟨540, none⟩ rfl).1).trans (by decide),
   ((C4_window_amended 0 0 ⟨600, none⟩ rfl).1).trans (by decide),
   ((C4_window_amended 0 0 ⟨360, none⟩ rfl).1).trans (by decide)⟩

/-- Claim C1: (first conjunct) whenever some event of the list
case-insensitively contains some configured skip keyword as a substring,
the classifier decides false; (second conjunct) the reported reason cites
exactly the first match in event-then-keyword enumeration order — for any
decomposition into the earlier events (none of which match any keyword),
the first matching event, and the earlier keywords (none of which match
that event), the result is the skip reason built from that keyword and
that event, independent of every later event and keyword. -/
theorem C1_first_match :
    (∀ (events : List Event) (kws : List String) (e : Event) (k : String),
        e ∈ events → k ∈ kws →
        strContains (lowerStr e.summary) (lowerStr k) = true →
        (is_conference_day events kws).1 = false)
    ∧ (∀ (pre : List Event) (e : Event) (post : List Event)
        (kpre : List String) (k : String) (kpost : List String),
        strContains (lowerStr e.summary) (lowerStr k) = true →
        (∀ e2 ∈ pre, ∀ k2 ∈ kpre ++ k :: kpost,
            strContains (lowerStr e2.summary) (lowerStr k2) = false) →
        (∀ k2 ∈ kpre, strContains (lowerStr e.summary) (lowerStr k2) = false) →
        is_conference_day (pre ++ e :: post) (kpre ++ k :: kpost) =
          (false, skipReason k e.summary)) := by
  constructor
  · intro events kws e k he hk hmatch
    cases events with
    | nil => cases he
    | cons e0 rest =>
      unfold is_conference_day
      rw [if_neg (by simp)]
      cases hscan : scanEvents (e0 :: rest) kws with
      | some p => simp
      | none =>
        exfalso
        have hfm := (scanEvents_eq_none _ _).mp hscan e he
        have := List.find?_eq_none.mp hfm k hk
        simp [hmatch] at this
  · intro pre e post kpre k kpost hk hpre hkpre
    have hfm : firstMatchKw e.summary (kpre ++ k :: kpost) = some k :=
      find_middle _ kpre k kpost hkpre hk
    have hpre2 : ∀ e2 ∈ pre, firstMatchKw e2.summary (kpre ++ k :: kpost) = none := by
      intro e2 he2
      exact List.find?_eq_none.mpr (fun k2 hk2 => by simp [hpre e2 he2 k2 hk2])
    have hscan : scanEvents (pre ++ e :: post) (kpre ++ k :: kpost) =
        some (k, e.summary) := by
      rw [scanEvents_append_none pre (e :: post) _ hpre2]
      simp [scanEvents, hfm]
    unfold is_conference_day
    rw [if_neg (by simp), hscan]

/-- Witness for C1 at concrete scenario 1 of the spec: skip keyword
`admin`, single event `Admin Day`. -/
theorem C1_witness :
    is_conference_day [⟨"Admin Day", .date 0⟩] ["admin"] =
      (false, skipReason "admin" "Admin Day") :=
  C1_first_match.2 [] ⟨"Admin Day", .date 0⟩ [] [] "admin" []
    (by decide) (by decide) (by decide)

/-- Claim C2: on a non-empty event list where no summary case-insensitively
contains any skip keyword, the classifier decides true and the reason is
`Conference day detected. Events: ` followed by all summaries in original
order joined by a comma and a space. -/
theorem C2_no_skip (events : List Event) (kws : List String)
    (hne : events ≠ [])
    (hno : ∀ e ∈ events, ∀ k ∈ kws,
        strContains (lowerStr e.summary) (lowerStr k) = false) :
    is_conference_day events kws =
      (true, "Conference day detected. Events: " ++
        String.intercalate ", " (events.map (·.summary))) := by
  have hscan : scanEvents events kws = none :=
    (scanEvents_eq_none _ _).mpr (fun e he =>
      List.find?_eq_none.mpr (fun k hk => by simp [hno e he k hk]))
  unfold is_conference_day
  rw [if_neg (by simp [hne]), hscan]
  rfl

/-- Witness for C2 at concrete scenario 2 of the spec. -/
theorem C2_witness :
    is_conference_day
        [⟨"Grand Rounds", .date 0⟩, ⟨"Journal Club", .date 0⟩] ["wellness"] =
      (true, "Conference day detected. Events: Grand Rounds, Journal Club") :=
  (C2_no_skip _ _ (by decide) (by decide)).trans (by decide)

/-- Claim C9, counterexample: with events `[Admin Day]` and skip keywords
`[admin, <empty>]` the keyword list contains the empty string and the
event list is non-empty, yet the classifier cites `admin` — the first
keyword in list order to match — and not the empty keyword. -/
theorem C9_counterexample :
    ("" ∈ ["admin", ""]) ∧
    is_conference_day [⟨"Admin Day", .date 0⟩] ["admin", ""] ≠
      (false, skipReason "" "Admin Day") := by
  decide

/-- Claim C9, amended: on a non-empty event list, when the skip-keyword
list contains the empty string the classifier decides false, citing the
summary of the first event together with the first keyword in list order
that matches it (which is the empty keyword only when no earlier keyword
matches). -/
theorem C9_empty_keyword (e : Event) (rest : List Event) (kws : List String)
    (h : "" ∈ kws) :
    ∃ k, firstMatchKw e.summary kws = some k ∧
      is_conference_day (e :: rest) kws = (false, skipReason k e.summary) := by
  have hmatch : strContains (lowerStr e.summary) (lowerStr "") = true :=
    containsCh_nil _
  obtain ⟨k, hk⟩ : ∃ k, firstMatchKw e.summary kws = some k :=
    Option.isSome_iff_exists.mp (List.find?_isSome.mpr ⟨"", h, hmatch⟩)
  refine ⟨k, hk, ?_⟩
  unfold is_conference_day
  rw [if_neg (by simp)]
  simp [scanEvents, hk]

/-- Witness for the amended C9: a single event `Lecture` with the empty
string as the only skip keyword. -/
theorem C9_witness :
    ∃ k, firstMatchKw "Lecture" [""] = some k ∧
      is_conference_day [⟨"Lecture", EventStart.date 0⟩] [""] =
        (false, skipReason k "Lecture") :=
  C9_empty_keyword ⟨"Lecture", .date 0⟩ [] [""] (by decide)

/-- Claim C7: the decision structure of the entry point.  Fetch/parse
failure without force exits 1 with zero survey invocations; failure with
force proceeds as if classification were true (one invocation, exit 0 iff
the driver succeeds); classification false without force exits 0 with zero
invocations; in every other case the driver is invoked once and the exit
code is 0 exactly when it reports success. -/
theorem C7_entry :
    (∀ (kws : List String) (sOk : Bool),
        mainRun .err false kws sOk = ⟨1, 0⟩)
    ∧ (∀ (kws : List String) (sOk : Bool),
        mainRun .err true kws sOk = ⟨if sOk then 0 else 1, 1⟩)
    ∧ (∀ (events : List Event) (kws : List String) (sOk : Bool),
        (is_conference_day events kws).1 = false →
        mainRun (.ok events) false kws sOk = ⟨0, 0⟩)
    ∧ (∀ (events : List Event) (kws : List String) (force sOk : Bool),
        (is_conference_day events kws).1 = true ∨ force = true →
        mainRun (.ok events) force kws sOk = ⟨if sOk then 0 else 1, 1⟩) := by
  refine ⟨fun kws sOk => rfl, fun kws sOk => rfl, ?_, ?_⟩
  · intro events kws sOk h
    simp [mainRun, h]
  · intro events kws force sOk h
    rcases h with h | h <;> simp [mainRun, h]

/-- Witness for C7: an empty event list (classification false) without
force exits 0 with zero survey invocations; a conference day with a failing
driver exits 1 with one invocation. -/
theorem C7_witness :
    mainRun (.ok []) false ["admin"] true = ⟨0, 0⟩ ∧
    mainRun (.ok [⟨"Grand Rounds", .date 0⟩]) false [] false = ⟨1, 1⟩ :=
  ⟨C7_entry.2.2.1 [] ["admin"] true (by decide),
   C7_entry.2.2.2 [⟨"Grand Rounds", .date 0⟩] [] false false (Or.inl (by decide))⟩
